import Mathlib

/-!
Verification of the scene-synchronization layer and locomotion controller of
the mujoco-wasm-unitree repository.

The JavaScript sources are shallowly embedded: number values are modelled by
rationals (the algorithms use only field operations, comparisons, truncated
remainder and component permutations, all of which the claims treat as exact),
typed-array buffers by total functions from indices to rationals, and the
stateful classes by explicit state records with pure step functions.
Transcendental helpers of the environment (Math.sin used for foot clearance,
the square root inside vector normalisation) are passed as explicit function
parameters; no verified claim inspects a value that depends on them.
-/

namespace MjScene

/-- A three.js Vector3: three scalar components, modelled over the rationals. -/
structure Vec3 where
  x : ℚ
  y : ℚ
  z : ℚ
deriving DecidableEq, Repr

/-- A three.js Quaternion.  The fields are stored in the order of the
arguments of Quaternion.set, namely x, y, z, w. -/
structure Quat where
  x : ℚ
  y : ℚ
  z : ℚ
  w : ℚ
deriving DecidableEq, Repr

/-- Embedding of mujocoUtils.getPosition: reads the 3-vector stored at
`index` of a flat buffer and, when `swizzle` is set (the default in the
source), maps engine axes (x, y, z) to render axes (x, z, -y). -/
def getPosition (buffer : ℕ → ℚ) (index : ℕ) (swizzle : Bool := true) : Vec3 :=
  if swizzle then
    { x :=   buffer (index * 3 + 0)
      y :=   buffer (index * 3 + 2)
      z := - buffer (index * 3 + 1) }
  else
    { x :=   buffer (index * 3 + 0)
      y :=   buffer (index * 3 + 1)
      z :=   buffer (index * 3 + 2) }

/-- Embedding of mujocoUtils.getQuaternion: reads the 4 scalars stored at
`index` of a flat buffer and fills the target quaternion via Quaternion.set.
The buffer stores an engine quaternion as (w, x, y, z) at offsets 0..3. -/
def getQuaternion (buffer : ℕ → ℚ) (index : ℕ) (swizzle : Bool := true) : Quat :=
  if swizzle then
    { x := - buffer (index * 4 + 1)
      y := - buffer (index * 4 + 3)
      z :=   buffer (index * 4 + 2)
      w := - buffer (index * 4 + 0) }
  else
    { x :=   buffer (index * 4 + 0)
      y :=   buffer (index * 4 + 1)
      z :=   buffer (index * 4 + 2)
      w :=   buffer (index * 4 + 3) }

/-- Embedding of mujocoUtils.toMujocoPos: maps a render-space vector
(x, y, z) to engine coordinates (x, -z, y), in place in the source. -/
def toMujocoPos (v : Vec3) : Vec3 :=
  { x := v.x, y := - v.z, z := v.y }

/-- A flat buffer holding a single 3-vector at index 0, used to state
round-trip properties of the position swizzle. -/
def bufferOfVec3 (v : Vec3) : ℕ → ℚ :=
  fun n => if n = 0 then v.x else if n = 1 then v.y else if n = 2 then v.z else 0

/-- The quaternion mapping that the specification text describes for the
swizzling branch, reading the engine components (w, x, y, z) at the index and
filling the Quaternion.set arguments with (-x, -w, z, -y).  This definition
follows the words of the spec; it is compared against `getQuaternion`, which
is translated from the source. -/
def specSwizzledQuaternion (buffer : ℕ → ℚ) (index : ℕ) : Quat :=
  { x := - buffer (index * 4 + 1)
    y := - buffer (index * 4 + 0)
    z :=   buffer (index * 4 + 3)
    w := - buffer (index * 4 + 2) }

/-- C4 — the position swizzle (x, y, z) -> (x, z, -y) of getPosition and the
inverse mapping (x, y, z) -> (x, -z, y) of toMujocoPos are exact inverses of
each other, in both composition orders. -/
theorem position_swizzle_roundtrip :
    (∀ buffer : ℕ → ℚ, ∀ index : ℕ,
      toMujocoPos (getPosition buffer index true) =
        { x := buffer (index * 3 + 0)
          y := buffer (index * 3 + 1)
          z := buffer (index * 3 + 2) }) ∧
    (∀ v : Vec3, getPosition (bufferOfVec3 (toMujocoPos v)) 0 true = v) := by
  constructor
  · intro buffer index
    simp [toMujocoPos, getPosition]
  · intro v
    simp [toMujocoPos, getPosition, bufferOfVec3]

/-- C2 counterexample — at the concrete engine quaternion
(w, x, y, z) = (1, 2, 3, 4) the source swizzle getQuaternion produces the
render quaternion with set-arguments (-2, -4, 3, -1), while the mapping
claimed by the spec, (w, x, y, z) -> (-x, -w, z, -y), would produce
(-2, -1, 4, -3); the two disagree. -/
theorem quaternion_swizzle_spec_mismatch :
    getQuaternion (fun n => (n : ℚ) + 1) 0 true ≠
      specSwizzledQuaternion (fun n => (n : ℚ) + 1) 0 := by
  intro h
  have hy := congrArg Quat.y h
  simp [getQuaternion, specSwizzledQuaternion] at hy

/-- C2 amended — for every quaternion buffer and index, the swizzling branch
of getQuaternion maps the engine quaternion (w, x, y, z) stored at the index
to the render quaternion whose Quaternion.set arguments (x, y, z, w) are
(-x, -z, y, -w); with swizzle disabled the four stored scalars are copied
into the set arguments in storage order. -/
theorem quaternion_swizzle_mapping (buffer : ℕ → ℚ) (index : ℕ) :
    getQuaternion buffer index true =
      { x := - buffer (index * 4 + 1)
        y := - buffer (index * 4 + 3)
        z :=   buffer (index * 4 + 2)
        w := - buffer (index * 4 + 0) } ∧
    getQuaternion buffer index false =
      { x := buffer (index * 4 + 0)
        y := buffer (index * 4 + 1)
        z := buffer (index * 4 + 2)
        w := buffer (index * 4 + 3) } := by
  constructor <;> simp [getQuaternion]

end MjScene

namespace Gait

/-- Leg index FR (front right), as in locomotionController.js. -/
def FR : Fin 4 := 0

/-- Leg index FL (front left). -/
def FL : Fin 4 := 1

/-- Leg index RR (rear right). -/
def RR : Fin 4 := 2

/-- Leg index RL (rear left). -/
def RL : Fin 4 := 3

/-- The fixed default standing pose: 12 actuator targets, 3 joints
(hip, thigh, calf) for each of the 4 legs, in source order FR, FL, RR, RL. -/
def DEFAULT_POSE : Fin 12 → ℚ :=
  ![0, 9/10, -9/5,
    0, 9/10, -9/5,
    0, 9/10, -9/5,
    0, 9/10, -9/5]

/-- Trot cycle duration constant (0.6 seconds). -/
def TROT_CYCLE_DURATION : ℚ := 3/5

/-- Trot step height constant (0.1 meters). -/
def TROT_STEP_HEIGHT : ℚ := 1/10

/-- Trot step length constant (0.15 meters). -/
def TROT_STEP_LENGTH : ℚ := 3/20

/-- Truncation toward zero, as the JavaScript % operator uses. -/
def ratTrunc (q : ℚ) : ℤ :=
  if 0 ≤ q then ⌊q⌋ else -⌊-q⌋

/-- The JavaScript remainder operator a % b on finite numbers:
a - b * trunc(a / b). -/
def jsMod (a b : ℚ) : ℚ :=
  a - b * ratTrunc (a / b)

/-- The LocomotionController instance state together with the actuator
command buffer it writes into (simulation.ctrl, restricted to the 12 motors
the controller addresses).  The direction vector always has z = 0 in the
source, so only its x and y components are kept. -/
structure ControllerState where
  time : ℚ
  phase : ℚ
  isMoving : Bool
  dirX : ℚ
  dirY : ℚ
  speed : ℚ
  ctrl : Fin 12 → ℚ

/-- LocomotionController.reset: writes DEFAULT_POSE into all 12 actuator
targets.  It touches nothing else. -/
def reset (st : ControllerState) : ControllerState :=
  { st with ctrl := fun i => DEFAULT_POSE i }

/-- LocomotionController.setDirection: normalizes (x, y, 0) as
THREE.Vector3.normalize does (dividing by the length, or by 1 when the
length is zero) and sets the moving flag from the 0.1 threshold test on the
raw inputs.  The square-root function of the environment is passed in
explicitly; no verified claim depends on its values. -/
def setDirection (sqrtQ : ℚ → ℚ) (st : ControllerState) (x y : ℚ) :
    ControllerState :=
  let len := sqrtQ (x * x + y * y + 0 * 0)
  let d := if len = 0 then 1 else len
  { st with
    dirX := x / d
    dirY := y / d
    isMoving := decide (1/10 < |x| ∨ 1/10 < |y|) }

/-- LocomotionController.setSpeed: clamps the speed to [0, 1]. -/
def setSpeed (st : ControllerState) (speed : ℚ) : ControllerState :=
  { st with speed := max 0 (min 1 speed) }

/-- One actuator of LocomotionController.returnToStandingPose: when the
difference to the default value exceeds 0.01 in magnitude, blend toward it
at rate returnSpeed = 0.5 scaled by dt; otherwise leave the value alone. -/
def relax (target current dt : ℚ) : ℚ :=
  if 1/100 < |target - current| then
    current + (target - current) * (1/2) * dt
  else
    current

/-- LocomotionController.returnToStandingPose: relaxes each of the 12
actuators independently toward DEFAULT_POSE. -/
def returnToStandingPose (st : ControllerState) (dt : ℚ) : ControllerState :=
  { st with ctrl := fun i => relax (DEFAULT_POSE i) (st.ctrl i) dt }

/-- The ctrl index of joint `j` (0 hip, 1 thigh, 2 calf) of leg `leg`. -/
def jointIndex (leg : Fin 4) (j : Fin 3) : Fin 12 :=
  ⟨leg.val * 3 + j.val, by have h1 := leg.isLt; have h2 := j.isLt; omega⟩

/-- The per-leg phases computed at the start of
LocomotionController.applyTrottingGait.  TROT_PAIRS pairs (FL, RR) and
(FR, RL) diagonally; in the first half cycle the pair (FL, RR) is in stance
(phase contribution 0) and (FR, RL) swings with local phase phase*2, and in
the second half cycle the roles are swapped with local phase
(phase - 0.5)*2. -/
def legPhasesOf (phase : ℚ) : Fin 4 → ℚ :=
  if phase < 1/2 then
    fun leg => if leg = FL ∨ leg = RR then 0 else phase * 2
  else
    fun leg => if leg = FL ∨ leg = RR then (phase - 1/2) * 2 else 0

/-- LocomotionController.calculateLegJointPositions: starting from the
default pose of the three joints of `leg`, if the leg is in swing
(phase > 0) add the step offsets.  `sinpi` is the environment map
p ↦ Math.sin(p * Math.PI) giving the vertical clearance factor; it is kept
abstract because it is transcendental, and no verified claim reads a value
produced through it. -/
def calculateLegJointPositions (sinpi : ℚ → ℚ) (st : ControllerState)
    (leg : Fin 4) (phase : ℚ) (ctrl : Fin 12 → ℚ) : Fin 12 → ℚ :=
  let hipDefault := DEFAULT_POSE (jointIndex leg 0)
  let thighDefault := DEFAULT_POSE (jointIndex leg 1)
  let calfDefault := DEFAULT_POSE (jointIndex leg 2)
  let heightFactor := sinpi phase
  let swingProgress := phase
  let legDirectionX := if leg = RR ∨ leg = RL then -st.dirX else st.dirX
  let legDirectionY := if leg = FL ∨ leg = RL then -st.dirY else st.dirY
  let stepX := st.speed * TROT_STEP_LENGTH * (swingProgress - 1/2) * legDirectionX
  let stepY := st.speed * TROT_STEP_LENGTH * (swingProgress - 1/2) * legDirectionY
  let stepZ := st.speed * TROT_STEP_HEIGHT * heightFactor
  let hipPos := if 0 < phase then hipDefault + stepY * (4/5) else hipDefault
  let thighPos :=
    if 0 < phase then thighDefault + stepX * (1/2) - stepZ * (1/2) else thighDefault
  let calfPos := if 0 < phase then calfDefault + stepZ * (4/5) else calfDefault
  fun i =>
    if i = jointIndex leg 0 then hipPos
    else if i = jointIndex leg 1 then thighPos
    else if i = jointIndex leg 2 then calfPos
    else ctrl i

/-- LocomotionController.applyTrottingGait: computes the per-leg phases from
the current cycle phase and writes the joint targets of the four legs in
order into the command buffer. -/
def applyTrottingGait (sinpi : ℚ → ℚ) (st : ControllerState) : ControllerState :=
  { st with
    ctrl := (List.finRange 4).foldl
      (fun c leg => calculateLegJointPositions sinpi st leg (legPhasesOf st.phase leg) c)
      st.ctrl }

/-- LocomotionController.update: advances the elapsed time by dt; when idle,
relaxes toward the standing pose and returns; when moving, recomputes the
cycle phase as (time % TROT_CYCLE_DURATION) / TROT_CYCLE_DURATION and
applies the trotting gait. -/
def update (sinpi : ℚ → ℚ) (st : ControllerState) (dt : ℚ) : ControllerState :=
  let st1 := { st with time := st.time + dt }
  if st1.isMoving = false then
    returnToStandingPose st1 dt
  else
    applyTrottingGait sinpi
      { st1 with phase := jsMod st1.time TROT_CYCLE_DURATION / TROT_CYCLE_DURATION }

/-- Iterated calls to update with a fixed time step. -/
def updateIter (sinpi : ℚ → ℚ) (st : ControllerState) (dt : ℚ) : ℕ → ControllerState
  | 0 => st
  | n + 1 => update sinpi (updateIter sinpi st dt n) dt

lemma update_isMoving (sinpi : ℚ → ℚ) (st : ControllerState) (dt : ℚ) :
    (update sinpi st dt).isMoving = st.isMoving := by
  by_cases h : st.isMoving <;>
    simp [update, returnToStandingPose, applyTrottingGait, h]

lemma updateIter_isMoving (sinpi : ℚ → ℚ) (st : ControllerState) (dt : ℚ) (n : ℕ) :
    (updateIter sinpi st dt n).isMoving = st.isMoving := by
  induction n with
  | zero => rfl
  | succ n ih => rw [updateIter, update_isMoving, ih]

lemma update_ctrl_idle (sinpi : ℚ → ℚ) (st : ControllerState) (dt : ℚ)
    (h : st.isMoving = false) :
    (update sinpi st dt).ctrl = fun i => relax (DEFAULT_POSE i) (st.ctrl i) dt := by
  simp [update, h, returnToStandingPose]

lemma relax_of_within (t c dt : ℚ) (h : |t - c| ≤ 1/100) : relax t c dt = c :=
  if_neg (not_lt.mpr h)

lemma relax_of_beyond (t c dt : ℚ) (h : 1/100 < |t - c|) :
    relax t c dt = c + (t - c) * (1/2) * dt :=
  if_pos h

lemma relax_sub (t c dt : ℚ) (h : 1/100 < |t - c|) :
    t - relax t c dt = (t - c) * (1 - dt/2) := by
  rw [relax_of_beyond t c dt h]; ring

lemma relax_dist_le (t c dt : ℚ) (h0 : 0 ≤ dt) (h2 : dt ≤ 2) :
    |t - relax t c dt| ≤ |t - c| := by
  by_cases h : 1/100 < |t - c|
  · rw [relax_sub t c dt h, abs_mul]
    have hb : |1 - dt/2| ≤ 1 := by
      rw [abs_le]; constructor <;> linarith
    have := mul_le_mul_of_nonneg_left hb (abs_nonneg (t - c))
    simpa using this
  · rw [relax_of_within t c dt (not_lt.mp h)]

/-- Scalar view of repeated idle relaxation of one actuator. -/
def relaxIter (t c dt : ℚ) : ℕ → ℚ
  | 0 => c
  | n + 1 => relax t (relaxIter t c dt n) dt

lemma relaxIter_stable (t c dt : ℚ) (N : ℕ)
    (h : |t - relaxIter t c dt N| ≤ 1/100) :
    ∀ n, N ≤ n → relaxIter t c dt n = relaxIter t c dt N := by
  intro n hn
  induction n, hn using Nat.le_induction with
  | base => rfl
  | succ n hn ih =>
    rw [relaxIter, ih, relax_of_within _ _ _ h]

lemma relaxIter_geom (t c dt : ℚ)
    (hall : ∀ k, 1/100 < |t - relaxIter t c dt k|) :
    ∀ n, t - relaxIter t c dt n = (t - c) * (1 - dt/2) ^ n := by
  intro n
  induction n with
  | zero => simp [relaxIter]
  | succ n ih =>
    rw [relaxIter, relax_sub _ _ _ (hall n), ih, pow_succ]; ring

lemma relax_eventually (t c dt : ℚ) (h0 : 0 < dt) (h2 : dt ≤ 2) :
    ∃ N, ∀ n, N ≤ n → |t - relaxIter t c dt n| ≤ 1/100 := by
  by_cases hcase : ∃ N, |t - relaxIter t c dt N| ≤ 1/100
  · obtain ⟨N, hN⟩ := hcase
    exact ⟨N, fun n hn => by rw [relaxIter_stable t c dt N hN n hn]; exact hN⟩
  · exfalso
    push_neg at hcase
    have h0c : 1/100 < |t - c| := by simpa [relaxIter] using hcase 0
    have habs : 0 < |t - c| := lt_trans (by norm_num) h0c
    have hr0 : (0:ℚ) ≤ 1 - dt/2 := by linarith
    have hr1 : 1 - dt/2 < 1 := by linarith
    obtain ⟨n, hn⟩ :=
      exists_pow_lt_of_lt_one (div_pos (show (0:ℚ) < 1/100 by norm_num) habs) hr1
    have hlt : (1 - dt/2) ^ n * |t - c| < 1/100 := by
      have hmul := mul_lt_mul_of_pos_right hn habs
      rwa [div_mul_cancel₀ _ (ne_of_gt habs)] at hmul
    have hgt := hcase n
    rw [relaxIter_geom t c dt hcase n, abs_mul, abs_pow, abs_of_nonneg hr0] at hgt
    nlinarith [hgt, hlt]

lemma updateIter_ctrl_idle (sinpi : ℚ → ℚ) (st : ControllerState) (dt : ℚ)
    (h : st.isMoving = false) (n : ℕ) (i : Fin 12) :
    (updateIter sinpi st dt n).ctrl i = relaxIter (DEFAULT_POSE i) (st.ctrl i) dt n := by
  induction n with
  | zero => rfl
  | succ n ih =>
    have hm : (updateIter sinpi st dt n).isMoving = false := by
      rw [updateIter_isMoving, h]
    show (update sinpi (updateIter sinpi st dt n) dt).ctrl i = _
    rw [update_ctrl_idle _ _ _ hm]
    simpa [relaxIter] using congrArg (fun q => relax (DEFAULT_POSE i) q dt) ih

/-- C5 — when the controller is moving, update recomputes the gait phase as
(time mod 0.6) / 0.6; in the first half cycle the diagonal pair (FL, RR) is
in stance with legPhase 0 while (FR, RL) swings with legPhase 2*phase; in
the second half cycle the roles are swapped; and at a total elapsed time of
exactly one cycle duration the phase wraps back to 0. -/
theorem gait_phase_trot (sinpi : ℚ → ℚ) (st : ControllerState) (dt : ℚ)
    (h : st.isMoving = true) :
    (update sinpi st dt).phase =
      jsMod (st.time + dt) TROT_CYCLE_DURATION / TROT_CYCLE_DURATION ∧
    (∀ p : ℚ, p < 1/2 →
      legPhasesOf p FL = 0 ∧ legPhasesOf p RR = 0 ∧
      legPhasesOf p FR = 2 * p ∧ legPhasesOf p RL = 2 * p) ∧
    (∀ p : ℚ, 1/2 ≤ p →
      legPhasesOf p FR = 0 ∧ legPhasesOf p RL = 0 ∧
      legPhasesOf p FL = 2 * (p - 1/2) ∧ legPhasesOf p RR = 2 * (p - 1/2)) ∧
    jsMod TROT_CYCLE_DURATION TROT_CYCLE_DURATION / TROT_CYCLE_DURATION = 0 := by
  refine ⟨?_, ?_, ?_, ?_⟩
  · simp [update, h, applyTrottingGait]
  · intro p hp
    rw [show legPhasesOf p = fun leg => if leg = FL ∨ leg = RR then 0 else p * 2
      from if_pos hp]
    refine ⟨?_, ?_, ?_, ?_⟩
    · exact if_pos (Or.inl rfl)
    · exact if_pos (Or.inr rfl)
    · show (if FR = FL ∨ FR = RR then (0:ℚ) else p * 2) = 2 * p
      rw [if_neg (by decide)]; ring
    · show (if RL = FL ∨ RL = RR then (0:ℚ) else p * 2) = 2 * p
      rw [if_neg (by decide)]; ring
  · intro p hp
    rw [show legPhasesOf p = fun leg =>
        if leg = FL ∨ leg = RR then (p - 1/2) * 2 else 0
      from if_neg (not_lt.mpr hp)]
    refine ⟨?_, ?_, ?_, ?_⟩
    · exact if_neg (by decide)
    · exact if_neg (by decide)
    · show (if FL = FL ∨ FL = RR then (p - 1/2) * 2 else (0:ℚ)) = 2 * (p - 1/2)
      rw [if_pos (Or.inl rfl)]; ring
    · show (if RR = FL ∨ RR = RR then (p - 1/2) * 2 else (0:ℚ)) = 2 * (p - 1/2)
      rw [if_pos (Or.inr rfl)]; ring
  · norm_num [jsMod, ratTrunc, TROT_CYCLE_DURATION]

/-- Concrete moving state used to witness the gait-phase theorem. -/
def stC5 : ControllerState :=
  { time := 0, phase := 0, isMoving := true,
    dirX := 1, dirY := 0, speed := 1, ctrl := fun _ => 0 }

/-- Witness for C5: from the moving state at time 0, one update of a full
cycle duration lands the phase back on 0. -/
theorem gait_phase_trot_witness :
    stC5.isMoving = true ∧
    (update (fun _ => 0) stC5 TROT_CYCLE_DURATION).phase = 0 := by
  constructor
  · rfl
  · have h := gait_phase_trot (fun _ => 0) stC5 TROT_CYCLE_DURATION rfl
    rw [h.1]
    show jsMod ((0:ℚ) + TROT_CYCLE_DURATION) TROT_CYCLE_DURATION / TROT_CYCLE_DURATION = 0
    rw [zero_add]
    exact h.2.2.2

/-- C6 amended — reset writes the fixed default standing pose into all 12
actuator targets and leaves every other field of the controller state,
including the gait phase and the elapsed time, unchanged. -/
theorem reset_sets_pose_only (st : ControllerState) :
    (reset st).ctrl = DEFAULT_POSE ∧
    (reset st).time = st.time ∧
    (reset st).phase = st.phase ∧
    (reset st).isMoving = st.isMoving ∧
    (reset st).dirX = st.dirX ∧
    (reset st).dirY = st.dirY ∧
    (reset st).speed = st.speed := by
  refine ⟨funext fun i => rfl, rfl, rfl, rfl, rfl, rfl, rfl⟩

/-- Concrete controller state with nonzero time and phase. -/
def stC6 : ControllerState :=
  { time := 1, phase := 1/2, isMoving := false,
    dirX := 0, dirY := 0, speed := 1/2, ctrl := fun _ => 0 }

/-- C6 counterexample — reset does not zero the elapsed time or the gait
phase: from a state with time 1 and phase 1/2, both survive reset. -/
theorem reset_keeps_time_phase_counterexample :
    (reset stC6).time ≠ 0 ∧ (reset stC6).phase ≠ 0 := by
  constructor <;> · show ¬(_ = (0:ℚ)); norm_num [reset, stC6]

/-- C8 amended — with the moving flag false and a time step in (0, 2], one
update relaxes each actuator toward its default by
current += (target - current) * 0.5 * dt, skips any actuator already within
0.01 of its target, never changes the moving flag, never increases any
actuator's distance to its target, and repeated updates reach (and then
stay within) the 0.01 tolerance of the default pose. -/
theorem idle_return_behavior (sinpi : ℚ → ℚ) (st : ControllerState) (dt : ℚ)
    (hidle : st.isMoving = false) (h0 : 0 < dt) (h2 : dt ≤ 2) :
    (update sinpi st dt).isMoving = st.isMoving ∧
    (∀ i, 1/100 < |DEFAULT_POSE i - st.ctrl i| →
      (update sinpi st dt).ctrl i =
        st.ctrl i + (DEFAULT_POSE i - st.ctrl i) * (1/2) * dt) ∧
    (∀ i, |DEFAULT_POSE i - st.ctrl i| ≤ 1/100 →
      (update sinpi st dt).ctrl i = st.ctrl i) ∧
    (∀ i, |DEFAULT_POSE i - (update sinpi st dt).ctrl i| ≤
      |DEFAULT_POSE i - st.ctrl i|) ∧
    (∃ N, ∀ n, N ≤ n → ∀ i,
      |DEFAULT_POSE i - (updateIter sinpi st dt n).ctrl i| ≤ 1/100) := by
  have hctrl := update_ctrl_idle sinpi st dt hidle
  refine ⟨update_isMoving sinpi st dt, ?_, ?_, ?_, ?_⟩
  · intro i hi
    rw [hctrl]
    exact relax_of_beyond _ _ _ hi
  · intro i hi
    rw [hctrl]
    exact relax_of_within _ _ _ hi
  · intro i
    rw [hctrl]
    exact relax_dist_le _ _ _ (le_of_lt h0) h2
  · have hev : ∀ i : Fin 12, ∃ N, ∀ n, N ≤ n →
        |DEFAULT_POSE i - relaxIter (DEFAULT_POSE i) (st.ctrl i) dt n| ≤ 1/100 :=
      fun i => relax_eventually _ _ dt h0 h2
    classical
    let F : Fin 12 → ℕ := fun i => (hev i).choose
    refine ⟨Finset.univ.sup F, ?_⟩
    intro n hn i
    rw [updateIter_ctrl_idle sinpi st dt hidle n i]
    have hFi : F i ≤ Finset.univ.sup F := Finset.le_sup (Finset.mem_univ i)
    exact (hev i).choose_spec n (le_trans hFi hn)

/-- Concrete idle controller state reached by setDirection(0, 0): the moving
flag is false and the command buffer is away from the default pose. -/
def stC8 : ControllerState :=
  setDirection (fun _ => 0)
    { time := 0, phase := 0, isMoving := true,
      dirX := 1, dirY := 0, speed := 1/2, ctrl := fun _ => 0 } 0 0

/-- C8 counterexample — from the idle state with an actuator at 0 (target
0.9), a single update with dt = 10 overshoots: the distance to the default
pose grows from 0.9 to 3.6, so updates with arbitrary dt > 0 are not
monotone toward the pose. -/
theorem idle_return_not_monotone_counterexample :
    stC8.isMoving = false ∧
    |DEFAULT_POSE 1 - stC8.ctrl 1| <
      |DEFAULT_POSE 1 - (update (fun _ => 0) stC8 10).ctrl 1| := by
  constructor
  · simp [stC8, setDirection]
  · have hidle : stC8.isMoving = false := by simp [stC8, setDirection]
    rw [update_ctrl_idle _ _ _ hidle]
    norm_num [stC8, setDirection, DEFAULT_POSE, relax, abs_of_nonneg, abs_of_nonpos]

/-- Witness for C8 amended: at the concrete idle state and dt = 1, the
hypotheses hold and the buffer entry 1 moves from 0 to 0.45 per the blend
formula. -/
theorem idle_return_behavior_witness :
    (stC8.isMoving = false ∧ (0:ℚ) < 1 ∧ (1:ℚ) ≤ 2) ∧
    (update (fun _ => 0) stC8 1).ctrl 1 =
      stC8.ctrl 1 + (DEFAULT_POSE 1 - stC8.ctrl 1) * (1/2) * 1 := by
  have hidle : stC8.isMoving = false := by simp [stC8, setDirection]
  refine ⟨⟨hidle, by norm_num, by norm_num⟩, ?_⟩
  have h := idle_return_behavior (fun _ => 0) stC8 1 hidle (by norm_num) (by norm_num)
  exact h.2.1 1 (by norm_num [stC8, setDirection, DEFAULT_POSE, abs_of_nonneg])

end Gait

namespace Tendon

/-- The capacity of the two instanced tendon pools allocated by
loadSceneFromURL: new THREE.InstancedMesh(..., 1023). -/
def POOL_CAPACITY : ℕ := 1023

/-- The data determining one sphere instance matrix in the tendon update of
MuJoCoDemo.render: mat.compose(point, identity quaternion, (r, r, r)).  The
slot stores the composing arguments; the resulting 4x4 matrix is a fixed
function of them. -/
structure SphereInstance where
  center : MjScene.Vec3
  radius : ℚ
deriving DecidableEq

/-- The data determining one cylinder instance matrix: the source composes
the matrix from the pair midpoint, the orientation obtained by normalizing
endPoint - startPoint (which involves a square root), and the scale
(r, distance, r).  The slot stores the two endpoints and the width, of
which the composed matrix is a fixed function. -/
structure CylinderInstance where
  startPoint : MjScene.Vec3
  endPoint : MjScene.Vec3
  radius : ℚ
deriving DecidableEq

/-- THREE.InstancedMesh.setMatrixAt writes the 16 matrix entries at offset
index*16 of the instanceMatrix Float32Array with plain indexed stores;
beyond the array (capacity 1023 instances) such stores are silently ignored,
so a write at an out-of-range index is a no-op and raises no error. -/
def setMatrixAt {α : Type} (pool : ℕ → Option α) (i : ℕ) (v : α) : ℕ → Option α :=
  if i < POOL_CAPACITY then fun n => if n = i then some v else pool n else pool

/-- The per-frame mutable state of the tendon update loop. -/
structure TendonSyncState where
  numWraps : ℕ
  spheres : ℕ → Option SphereInstance
  cylinders : ℕ → Option CylinderInstance

/-- Model-side tendon tables read by the loop. -/
structure TendonModel where
  ntendon : ℕ
  tendon_width : ℕ → ℚ

/-- Simulation-side tendon state read by the loop.  wrap_xpos is the flat
3-scalar-per-point buffer addressed through getPosition. -/
structure TendonSim where
  ten_wrapadr : ℕ → ℕ
  ten_wrapnum : ℕ → ℕ
  wrap_xpos : ℕ → ℚ

/-- The dead-point test of the source, tendonPoint.length() > 0.01, stated
on the squared length so it stays inside the rationals: for nonnegative
lengths the two comparisons agree exactly. -/
def isValidPoint (v : MjScene.Vec3) : Bool :=
  decide (1/10000 < v.x * v.x + v.y * v.y + v.z * v.z)

/-- One iteration of the inner wrap-point loop of MuJoCoDemo.render at wrap
index w with tendon width r: emit a sphere at each valid endpoint of the
pair (w, w+1) at pool indices numWraps and numWraps + 1, and only when both
endpoints are valid emit the connecting cylinder at index numWraps and
advance numWraps. -/
def wrapStep (sim : TendonSim) (r : ℚ) (st : TendonSyncState) (w : ℕ) :
    TendonSyncState :=
  let tendonStart := MjScene.getPosition sim.wrap_xpos w
  let tendonEnd := MjScene.getPosition sim.wrap_xpos (w + 1)
  let validStart := isValidPoint tendonStart
  let validEnd := isValidPoint tendonEnd
  let st1 :=
    if validStart then
      { st with spheres := setMatrixAt st.spheres st.numWraps ⟨tendonStart, r⟩ }
    else st
  let st2 :=
    if validEnd then
      { st1 with spheres := setMatrixAt st1.spheres (st1.numWraps + 1) ⟨tendonEnd, r⟩ }
    else st1
  if validStart && validEnd then
    { st2 with
      cylinders := setMatrixAt st2.cylinders st2.numWraps ⟨tendonStart, tendonEnd, r⟩
      numWraps := st2.numWraps + 1 }
  else st2

/-- The inner loop over one tendon t: wrap indices run from ten_wrapadr[t]
while w < ten_wrapadr[t] + ten_wrapnum[t] - 1, hence ten_wrapnum[t] - 1
consecutive pairs. -/
def tendonStep (model : TendonModel) (sim : TendonSim) (st : TendonSyncState)
    (t : ℕ) : TendonSyncState :=
  (List.range (sim.ten_wrapnum t - 1)).foldl
    (fun s k => wrapStep sim (model.tendon_width t) s (sim.ten_wrapadr t + k)) st

/-- The instanced pools after the tendon section of one render frame. -/
structure TendonPools where
  numWraps : ℕ
  spheres : ℕ → Option SphereInstance
  cylinders : ℕ → Option CylinderInstance
  cylindersCount : ℕ
  spheresCount : ℕ

/-- The whole tendon update of MuJoCoDemo.render: numWraps restarts at 0,
the loop runs over all tendons, and finally cylinders.count is assigned
numWraps and spheres.count is assigned numWraps + 1 when numWraps > 0 and 0
otherwise, with no clamping applied to either assignment. -/
def tendonSync (model : TendonModel) (sim : TendonSim) : TendonPools :=
  let st := (List.range model.ntendon).foldl (tendonStep model sim)
    ⟨0, fun _ => none, fun _ => none⟩
  { numWraps := st.numWraps
    spheres := st.spheres
    cylinders := st.cylinders
    cylindersCount := st.numWraps
    spheresCount := if 0 < st.numWraps then st.numWraps + 1 else 0 }

lemma setMatrixAt_high {α : Type} (pool : ℕ → Option α) (i : ℕ) (v : α) (j : ℕ)
    (h : POOL_CAPACITY ≤ j) : setMatrixAt pool i v j = pool j := by
  unfold setMatrixAt
  split
  · rename_i hi
    have : j ≠ i := by omega
    simp [this]
  · rfl

/-- Pool slots at or beyond capacity hold no data. -/
def HighNone (st : TendonSyncState) : Prop :=
  ∀ j, POOL_CAPACITY ≤ j → st.spheres j = none ∧ st.cylinders j = none

lemma wrapStep_highNone (sim : TendonSim) (r : ℚ) (st : TendonSyncState) (w : ℕ)
    (h : HighNone st) : HighNone (wrapStep sim r st w) := by
  intro j hj
  obtain ⟨hs, hc⟩ := h j hj
  unfold wrapStep
  cases hvs : isValidPoint (MjScene.getPosition sim.wrap_xpos w) <;>
    cases hve : isValidPoint (MjScene.getPosition sim.wrap_xpos (w + 1)) <;>
      simp [hvs, hve, setMatrixAt_high, hs, hc, hj]

lemma foldl_wrapStep_highNone (sim : TendonSim) (r : ℚ) (l : List ℕ)
    (st : TendonSyncState) (h : HighNone st) :
    HighNone (l.foldl (fun s k => wrapStep sim r s k) st) := by
  induction l generalizing st with
  | nil => exact h
  | cons a l ih => exact ih _ (wrapStep_highNone sim r st a h)

lemma tendonStep_highNone (model : TendonModel) (sim : TendonSim)
    (st : TendonSyncState) (t : ℕ) (h : HighNone st) :
    HighNone (tendonStep model sim st t) := by
  unfold tendonStep
  have := foldl_wrapStep_highNone sim (model.tendon_width t)
    ((List.range (sim.ten_wrapnum t - 1)).map (fun k => sim.ten_wrapadr t + k)) st h
  rw [List.foldl_map] at this
  exact this

lemma tendonSync_highNone (model : TendonModel) (sim : TendonSim) :
    ∀ j, POOL_CAPACITY ≤ j →
      (tendonSync model sim).spheres j = none ∧
      (tendonSync model sim).cylinders j = none := by
  have : ∀ (l : List ℕ) (st : TendonSyncState), HighNone st →
      HighNone (l.foldl (tendonStep model sim) st) := by
    intro l
    induction l with
    | nil => intro st h; exact h
    | cons a l ih => intro st h; exact ih _ (tendonStep_highNone model sim st a h)
  intro j hj
  exact this (List.range model.ntendon) ⟨0, fun _ => none, fun _ => none⟩
    (fun _ _ => ⟨rfl, rfl⟩) j hj

lemma tendonSync_numWraps_def (model : TendonModel) (sim : TendonSim) :
    (tendonSync model sim).numWraps =
      ((List.range model.ntendon).foldl (tendonStep model sim)
        ⟨0, fun _ => none, fun _ => none⟩).numWraps := rfl

lemma tendonSync_spheresCount_def (model : TendonModel) (sim : TendonSim) :
    (tendonSync model sim).spheresCount =
      (if 0 < (tendonSync model sim).numWraps
       then (tendonSync model sim).numWraps + 1 else 0) := rfl

lemma wrapStep_numWraps (sim : TendonSim) (r : ℚ) (st : TendonSyncState) (w : ℕ) :
    (wrapStep sim r st w).numWraps = st.numWraps +
      (if (isValidPoint (MjScene.getPosition sim.wrap_xpos w) &&
           isValidPoint (MjScene.getPosition sim.wrap_xpos (w + 1))) = true
       then 1 else 0) := by
  cases hvs : isValidPoint (MjScene.getPosition sim.wrap_xpos w) <;>
    cases hve : isValidPoint (MjScene.getPosition sim.wrap_xpos (w + 1)) <;>
      simp [wrapStep, hvs, hve]

lemma foldl_wrapStep_numWraps (sim : TendonSim) (r : ℚ)
    (hall : ∀ w, isValidPoint (MjScene.getPosition sim.wrap_xpos w) = true) :
    ∀ (l : List ℕ) (st : TendonSyncState),
      ((l.foldl (fun s k => wrapStep sim r s k) st).numWraps = st.numWraps + l.length) := by
  intro l
  induction l with
  | nil => intro st; simp
  | cons a l ih =>
    intro st
    rw [List.foldl_cons, ih, wrapStep_numWraps]
    simp [hall]
    omega

/-- One tendon whose wrap range holds 1024 points, every one of them valid
(all coordinates 1, squared length 3). -/
def sC1 : TendonSim :=
  { ten_wrapadr := fun _ => 0, ten_wrapnum := fun _ => 1024, wrap_xpos := fun _ => 1 }

/-- The tendon table paired with sC1. -/
def mC1 : TendonModel := { ntendon := 1, tendon_width := fun _ => 1/10 }

/-- C1 counterexample — with 1024 valid wrap points on one tendon, the
render loop counts 1023 valid pairs and assigns the sphere pool an active
count of numWraps + 1 = 1024, which exceeds the pool capacity of 1023: the
assigned count is not clamped to the capacity. -/
theorem tendon_count_exceeds_capacity_counterexample :
    (tendonSync mC1 sC1).spheresCount = 1024 ∧
    ¬((tendonSync mC1 sC1).spheresCount ≤ POOL_CAPACITY) := by
  have hall : ∀ w, isValidPoint (MjScene.getPosition sC1.wrap_xpos w) = true := by
    intro w
    norm_num [isValidPoint, MjScene.getPosition, sC1, decide_eq_true_eq]
  have hnum : (tendonSync mC1 sC1).numWraps = 1023 := by
    rw [tendonSync_numWraps_def]
    have hone : List.range mC1.ntendon = [0] := by
      simp only [mC1]
      rfl
    rw [hone, List.foldl_cons, List.foldl_nil]
    have hstep : tendonStep mC1 sC1 ⟨0, fun _ => none, fun _ => none⟩ 0 =
        ((List.range 1023).map (fun k => 0 + k)).foldl
          (fun s k => wrapStep sC1 (1/10) s k) ⟨0, fun _ => none, fun _ => none⟩ := by
      rw [List.foldl_map]
      simp [tendonStep, sC1, mC1]
    rw [hstep, foldl_wrapStep_numWraps sC1 (1/10) hall]
    simp
  rw [tendonSync_spheresCount_def, hnum]
  norm_num [POOL_CAPACITY]

/-- C1 amended — the tendon sync never stores instance data at or beyond
pool index 1023 (out-of-range matrix writes are silently dropped, and the
loop is total, so no error is raised), but the active counts it assigns are
the raw valid-pair total numWraps and numWraps + 1 (when positive), with no
clamping to the pool capacity: as the counterexample shows, the assigned
counts themselves can exceed 1023. -/
theorem tendon_pool_saturation (model : TendonModel) (sim : TendonSim) (i : ℕ)
    (h : POOL_CAPACITY ≤ i) :
    (tendonSync model sim).spheres i = none ∧
    (tendonSync model sim).cylinders i = none ∧
    (tendonSync model sim).cylindersCount = (tendonSync model sim).numWraps ∧
    (tendonSync model sim).spheresCount =
      (if 0 < (tendonSync model sim).numWraps
       then (tendonSync model sim).numWraps + 1 else 0) := by
  obtain ⟨hs, hc⟩ := tendonSync_highNone model sim i h
  exact ⟨hs, hc, rfl, rfl⟩

/-- Witness for C1 amended at the concrete saturated scene and pool
index 1023. -/
theorem tendon_pool_saturation_witness :
    POOL_CAPACITY ≤ 1023 ∧ (tendonSync mC1 sC1).spheres 1023 = none :=
  ⟨le_refl _, (tendon_pool_saturation mC1 sC1 1023 (le_refl _)).1⟩

/-- One tendon with 4 wrap points: point 0 valid, point 1 the dead-point
sentinel (0,0,0), points 2 and 3 valid.  The pair (0,1) writes a sphere for
point 0 at slot 0 without advancing the counter; the pair (2,3) then
overwrites slot 0. -/
def sC10 : TendonSim :=
  { ten_wrapadr := fun _ => 0
    ten_wrapnum := fun _ => 4
    wrap_xpos := fun n => if n = 0 then 1 else if n = 6 then 2 else if n = 9 then 3 else 0 }

/-- The tendon table paired with sC10. -/
def mC10 : TendonModel := { ntendon := 1, tendon_width := fun _ => 1/10 }

/-- C10 — the sphere pool's active count equals the cylinder count plus one
when the latter is positive and zero otherwise; the shared counter advances
only when both endpoints of a pair are valid (never per valid endpoint);
and concretely, a valid endpoint whose partner is invalid has its sphere
written at the current counter slot and later overwritten by the next fully
valid pair. -/
theorem sphere_count_tracks_cylinder_count (model : TendonModel) (sim : TendonSim) :
    (tendonSync model sim).spheresCount =
      (if 0 < (tendonSync model sim).cylindersCount
       then (tendonSync model sim).cylindersCount + 1 else 0) ∧
    (∀ (sim2 : TendonSim) (r : ℚ) (st : TendonSyncState) (w : ℕ),
      (wrapStep sim2 r st w).numWraps = st.numWraps +
        (if (isValidPoint (MjScene.getPosition sim2.wrap_xpos w) &&
             isValidPoint (MjScene.getPosition sim2.wrap_xpos (w + 1))) = true
         then 1 else 0)) ∧
    ((wrapStep sC10 (1/10) ⟨0, fun _ => none, fun _ => none⟩ 0).spheres 0 =
        some ⟨MjScene.getPosition sC10.wrap_xpos 0, 1/10⟩ ∧
      isValidPoint (MjScene.getPosition sC10.wrap_xpos 0) = true ∧
      (tendonSync mC10 sC10).spheres 0 =
        some ⟨MjScene.getPosition sC10.wrap_xpos 2, 1/10⟩ ∧
      MjScene.getPosition sC10.wrap_xpos 2 ≠ MjScene.getPosition sC10.wrap_xpos 0) := by
  have hv0 : isValidPoint (MjScene.getPosition sC10.wrap_xpos 0) = true := by
    norm_num [isValidPoint, MjScene.getPosition, sC10, decide_eq_true_eq]
  have hv1 : isValidPoint (MjScene.getPosition sC10.wrap_xpos 1) = false := by
    norm_num [isValidPoint, MjScene.getPosition, sC10, decide_eq_false_iff_not]
  have hv2 : isValidPoint (MjScene.getPosition sC10.wrap_xpos 2) = true := by
    norm_num [isValidPoint, MjScene.getPosition, sC10, decide_eq_true_eq]
  have hv3 : isValidPoint (MjScene.getPosition sC10.wrap_xpos 3) = true := by
    norm_num [isValidPoint, MjScene.getPosition, sC10, decide_eq_true_eq]
  have e1 : wrapStep sC10 (1/10) ⟨0, fun _ => none, fun _ => none⟩ 0 =
      ⟨0, setMatrixAt (fun _ => none) 0 ⟨MjScene.getPosition sC10.wrap_xpos 0, 1/10⟩,
        fun _ => none⟩ := by
    simp [wrapStep, hv0, hv1]
  have e2 : wrapStep sC10 (1/10)
      ⟨0, setMatrixAt (fun _ => none) 0 ⟨MjScene.getPosition sC10.wrap_xpos 0, 1/10⟩,
        fun _ => none⟩ 1 =
      ⟨0, setMatrixAt
            (setMatrixAt (fun _ => none) 0 ⟨MjScene.getPosition sC10.wrap_xpos 0, 1/10⟩)
            1 ⟨MjScene.getPosition sC10.wrap_xpos 2, 1/10⟩,
        fun _ => none⟩ := by
    simp [wrapStep, hv1, hv2]
  have e3 : wrapStep sC10 (1/10)
      ⟨0, setMatrixAt
            (setMatrixAt (fun _ => none) 0 ⟨MjScene.getPosition sC10.wrap_xpos 0, 1/10⟩)
            1 ⟨MjScene.getPosition sC10.wrap_xpos 2, 1/10⟩,
        fun _ => none⟩ 2 =
      ⟨1, setMatrixAt
            (setMatrixAt
              (setMatrixAt
                (setMatrixAt (fun _ => none) 0
                  ⟨MjScene.getPosition sC10.wrap_xpos 0, 1/10⟩)
                1 ⟨MjScene.getPosition sC10.wrap_xpos 2, 1/10⟩)
              0 ⟨MjScene.getPosition sC10.wrap_xpos 2, 1/10⟩)
            1 ⟨MjScene.getPosition sC10.wrap_xpos 3, 1/10⟩,
        setMatrixAt (fun _ => none) 0
          ⟨MjScene.getPosition sC10.wrap_xpos 2, MjScene.getPosition sC10.wrap_xpos 3,
            1/10⟩⟩ := by
    simp [wrapStep, hv2, hv3]
  refine ⟨rfl, fun sim2 r st w => wrapStep_numWraps sim2 r st w, ?_, hv0, ?_, ?_⟩
  · rw [e1]
    simp [setMatrixAt, POOL_CAPACITY]
  · have hfold : (tendonSync mC10 sC10).spheres =
        (wrapStep sC10 (1/10) (wrapStep sC10 (1/10)
          (wrapStep sC10 (1/10) ⟨0, fun _ => none, fun _ => none⟩ 0) 1) 2).spheres := rfl
    rw [hfold, e1, e2, e3]
    simp [setMatrixAt, POOL_CAPACITY]
  · intro hcontra
    have hx := congrArg MjScene.Vec3.x hcontra
    norm_num [MjScene.getPosition, sC10] at hx

end Tendon

namespace Scene

/-- The model tables read by loadSceneFromURL.  Typed arrays are modelled as
total functions from flat indices to scalars; `names` is the shared
null-delimited byte blob, with `none` standing for an absent array.  The
flat layouts follow the source accesses: 3 scalars per geom for sizes and
positions, 4 for colors and quaternions. -/
structure Model where
  names : Option (List ℕ)
  ngeom : ℕ
  geom_group : ℕ → ℤ
  geom_type : ℕ → ℕ
  geom_bodyid : ℕ → ℕ
  geom_size : ℕ → ℚ
  geom_pos : ℕ → ℚ
  geom_quat : ℕ → ℚ
  geom_matid : ℕ → ℤ
  geom_rgba : ℕ → ℚ
  geom_dataid : ℕ → ℤ
  mat_rgba : ℕ → ℚ
  mat_texid : ℕ → ℤ
  mat_specular : ℕ → ℚ
  mat_reflectance : ℕ → ℚ
  mat_shininess : ℕ → ℚ
  tex_width : ℕ → ℕ
  tex_height : ℕ → ℕ
  tex_adr : ℕ → ℕ
  tex_rgb : ℕ → ℚ
  name_bodyadr : ℕ → ℕ
  mesh_vertadr : ℕ → ℕ
  mesh_vertnum : ℕ → ℕ
  mesh_vert : ℕ → ℚ
  mesh_normal : ℕ → ℚ
  mesh_texcoordadr : ℕ → ℕ
  mesh_texcoord : ℕ → ℚ
  mesh_faceadr : ℕ → ℕ
  mesh_facenum : ℕ → ℕ
  mesh_face : ℕ → ℕ
  nlight : ℕ
  light_directional : ℕ → Bool
  light_attenuation : ℕ → ℚ
  nbody : ℕ

/-- The byte blob once the build has passed the integrity check. -/
def namesBytes (m : Model) : List ℕ :=
  m.names.getD []

/-- The RGBA expansion loadSceneFromURL performs for a texture: each packed
RGB pixel of tex_rgb is copied channel-wise and the alpha slot is set to 1;
slots beyond width*height*4 keep the zero-initialised value of the fresh
Uint8Array. -/
def texRGBA (m : Model) (texId : ℕ) : ℕ → ℚ := fun n =>
  if n < m.tex_width texId * m.tex_height texId * 4 then
    (if n % 4 = 3 then 1 else m.tex_rgb (m.tex_adr texId + (n / 4) * 3 + n % 4))
  else 0

/-- A constructed THREE.DataTexture.  `objId` is the allocation identity of
the JavaScript object: a fresh DataTexture is constructed for every textured
geometry, so two constructions never compare equal under the != identity
test even when built from the same texture record. -/
structure Texture where
  objId : ℕ
  image : ℕ → ℚ
  width : ℕ
  height : ℕ
  repeatX : ℕ
  repeatY : ℕ

/-- The DataTexture constructed for texture record texId, with the
special-cased 50x50 repeat for texture id 2 and 1x1 otherwise. -/
def mkTexture (m : Model) (texId : ℕ) (objId : ℕ) : Texture :=
  { objId := objId
    image := texRGBA m texId
    width := m.tex_width texId
    height := m.tex_height texId
    repeatX := if texId = 2 then 50 else 1
    repeatY := if texId = 2 then 50 else 1 }

/-- The observable fields of a THREE.MeshPhysicalMaterial constructed by the
build.  Properties passed as undefined fall back to engine defaults, which
is recorded as `none`.  `map` holds the identity of the assigned DataTexture
object; JavaScript null and undefined compare equal under the loose != the
source uses, so both collapse to `none`. -/
structure Material where
  r : ℚ
  g : ℚ
  b : ℚ
  opacity : ℚ
  transparent : Bool
  specularIntensity : Option ℚ
  reflectivity : Option ℚ
  roughness : Option ℚ
  metalness : Option ℚ
  map : Option ℕ
deriving DecidableEq

/-- The memo slot before the geometry loop: a default MeshPhysicalMaterial
whose color is then set to (1, 1, 1); opacity defaults to 1, the map to
null, every other compared-against property to the engine default. -/
def initialMaterial : Material :=
  { r := 1, g := 1, b := 1, opacity := 1, transparent := false,
    specularIntensity := none, reflectivity := none, roughness := none,
    metalness := none, map := none }

/-- A 4-component color as read from geom_rgba or mat_rgba. -/
structure RGBA where
  r : ℚ
  g : ℚ
  b : ℚ
  a : ℚ
deriving DecidableEq

/-- The color the build derives for geom g: the material record's rgba when
the geom references a material id, the per-geom rgba otherwise. -/
def derivedColor (m : Model) (g : ℕ) : RGBA :=
  if m.geom_matid g ≠ -1 then
    { r := m.mat_rgba ((m.geom_matid g).toNat * 4)
      g := m.mat_rgba ((m.geom_matid g).toNat * 4 + 1)
      b := m.mat_rgba ((m.geom_matid g).toNat * 4 + 2)
      a := m.mat_rgba ((m.geom_matid g).toNat * 4 + 3) }
  else
    { r := m.geom_rgba (g * 4)
      g := m.geom_rgba (g * 4 + 1)
      b := m.geom_rgba (g * 4 + 2)
      a := m.geom_rgba (g * 4 + 3) }

/-- Whether the build constructs a texture for geom g: it must reference a
material id and that material must reference a texture id. -/
def geomHasTexture (m : Model) (g : ℕ) : Prop :=
  m.geom_matid g ≠ -1 ∧ m.mat_texid (m.geom_matid g).toNat ≠ -1

instance (m : Model) (g : ℕ) : Decidable (geomHasTexture m g) :=
  inferInstanceAs (Decidable (_ ∧ _))

/-- The outcome of the material section of the geometry loop for one geom:
the memo slot afterwards, the DataTexture allocation counter, the number of
material allocations so far, and the texture identity constructed for this
geom (used by the plane branch, which hands the texture to the Reflector). -/
structure MaterialResolution where
  material : Material
  nextTexObj : ℕ
  allocs : ℕ
  texMap : Option ℕ

/-- The material section of the geometry loop: derive the color, construct
a fresh DataTexture when the geom has one, then compare color, opacity and
map identity against the memoized material and allocate a new
MeshPhysicalMaterial exactly when one of them differs. -/
def resolveMaterial (m : Model) (memo : Material) (nextTexObj allocs : ℕ)
    (g : ℕ) : MaterialResolution :=
  let c := derivedColor m g
  let tex : Option Texture :=
    if geomHasTexture m g then
      some (mkTexture m (m.mat_texid (m.geom_matid g).toNat).toNat nextTexObj)
    else none
  let nextTexObj2 := if tex.isSome then nextTexObj + 1 else nextTexObj
  let texMap := tex.map Texture.objId
  if memo.r ≠ c.r ∨ memo.g ≠ c.g ∨ memo.b ≠ c.b ∨ memo.opacity ≠ c.a ∨
      memo.map ≠ texMap then
    { material :=
        { r := c.r, g := c.g, b := c.b
          opacity := c.a
          transparent := decide (c.a < 1)
          specularIntensity :=
            if m.geom_matid g ≠ -1
            then some (m.mat_specular (m.geom_matid g).toNat * (1/2)) else none
          reflectivity :=
            if m.geom_matid g ≠ -1
            then some (m.mat_reflectance (m.geom_matid g).toNat) else none
          roughness :=
            if m.geom_matid g ≠ -1
            then some (1 - m.mat_shininess (m.geom_matid g).toNat) else none
          metalness :=
            if m.geom_matid g ≠ -1 then some (1/10) else none
          map := texMap }
      nextTexObj := nextTexObj2
      allocs := allocs + 1
      texMap := texMap }
  else
    { material := memo, nextTexObj := nextTexObj2, allocs := allocs,
      texMap := texMap }

/-- The structural appearance triple the specification text compares:
derived color with opacity, and the texture identified by its texture
record id.  This definition follows the words of the spec (color, opacity,
texture identity); the source instead compares the identity of the freshly
constructed DataTexture object. -/
def specAppearance (m : Model) (g : ℕ) : RGBA × Option ℤ :=
  (derivedColor m g,
   if geomHasTexture m g then some (m.mat_texid (m.geom_matid g).toNat) else none)

/-- A renderable geometry produced by the geometry dispatch of the build.
Triangle meshes are represented by the mesh id whose buffer ranges the
BufferGeometry views point into. -/
inductive Geometry where
  | defaultSphere (radius : ℚ)
  | sphere (radius : ℚ)
  | capsule (radius length : ℚ)
  | unitSphere
  | cylinder (radius height : ℚ)
  | box (sx sy sz : ℚ)
  | bufferGeom (meshId : ℕ)
deriving DecidableEq

/-- The in-place axis conversion applied to a vertex or normal sub-range
[lo, hi) of a shared model buffer, three scalars per point: for each triple
the loop stores the old z in the y slot and the negated old y in the z slot.
The range start lo is always 3 * mesh_vertadr, a multiple of 3, so slot
roles coincide with the index residue mod 3. -/
def swizzleTriples (buf : ℕ → ℚ) (lo hi : ℕ) : ℕ → ℚ := fun n =>
  if lo ≤ n ∧ n < hi then
    (if n % 3 = 0 then buf n
     else if n % 3 = 1 then buf (n + 1)
     else - buf (n - 1))
  else buf n

/-- The result of the triangle-mesh branch: the geometry, the model (whose
mesh_vert and mesh_normal buffers the branch mutates through subarray
views), and the mesh cache. -/
structure MeshSynthesis where
  geometry : Geometry
  model : Model
  meshes : ℕ → Option Geometry

/-- The triangle-mesh branch of the geometry dispatch: on a cache miss,
swizzle the vertex and normal sub-ranges of the shared model buffers in
place (the BufferGeometry attributes are subarray views of those buffers,
not copies), cache the geometry under the mesh id; on a hit, reuse the
cached geometry and touch nothing. -/
def synthesizeMeshGeom (m : Model) (cache : ℕ → Option Geometry) (meshID : ℕ) :
    MeshSynthesis :=
  match cache meshID with
  | some geo => { geometry := geo, model := m, meshes := cache }
  | none =>
    let lo := m.mesh_vertadr meshID * 3
    let hi := (m.mesh_vertadr meshID + m.mesh_vertnum meshID) * 3
    { geometry := Geometry.bufferGeom meshID
      model :=
        { m with
          mesh_vert := swizzleTriples m.mesh_vert lo hi
          mesh_normal := swizzleTriples m.mesh_normal lo hi }
      meshes := fun k =>
        if k = meshID then some (Geometry.bufferGeom meshID) else cache k }

/-- A renderable mesh node attached to a body group.  For the plane type the
node is a Reflector built from the current texture; for every other type a
Mesh of the dispatched geometry and the memoized material. -/
structure MeshNode where
  geometry : Geometry
  material : Material
  isReflector : Bool
  reflectorTexture : Option ℕ
  castShadow : Bool
  receiveShadow : Bool
  bodyID : ℕ
  position : MjScene.Vec3
  quaternion : Option MjScene.Quat
  scale : MjScene.Vec3

/-- A body group node of the scene hierarchy. -/
structure BodyNode where
  name : List ℕ
  bodyID : ℕ
  has_custom_mesh : Bool
  meshes : List MeshNode

/-- The display-name scan for a body: the bytes from the offset up to the
next null byte or the end of the blob. -/
def scanName (names : List ℕ) (start : ℕ) : List ℕ :=
  (names.drop start).takeWhile (fun byte => byte ≠ 0)

/-- The mutable state threaded through the geometry loop. -/
structure BuildState where
  model : Model
  bodies : ℕ → Option BodyNode
  meshes : ℕ → Option Geometry
  material : Material
  nextTexObj : ℕ
  materialAllocs : ℕ

/-- Marks bodies[b].has_custom_mesh, as the mesh branch does. -/
def setBodyCustom (bodies : ℕ → Option BodyNode) (b : ℕ) : ℕ → Option BodyNode :=
  fun b2 => if b2 = b then (bodies b).map (fun bn => { bn with has_custom_mesh := true })
            else bodies b2

/-- bodies[b].add(mesh). -/
def addMeshToBody (bodies : ℕ → Option BodyNode) (b : ℕ) (mesh : MeshNode) :
    ℕ → Option BodyNode :=
  fun b2 => if b2 = b then (bodies b).map (fun bn => { bn with meshes := bn.meshes ++ [mesh] })
            else bodies b2

/-- One iteration of the geometry loop of loadSceneFromURL for geom g:
skip geoms with visibility group at least 3; lazily create the owning body
group with its scanned display name; dispatch on the mjtGeom type tag
(0 plane, 1 height field placeholder, 2 sphere, 3 capsule, 4 ellipsoid,
5 cylinder, 6 box, 7 triangle mesh, anything else the default sphere of
radius size0 * 0.5); resolve the material; and attach the finished mesh
node to the body with its swizzled pose. -/
def geomStep (st : BuildState) (g : ℕ) : BuildState :=
  if st.model.geom_group g < 3 then
    let b := st.model.geom_bodyid g
    let type := st.model.geom_type g
    let size0 := st.model.geom_size (g * 3)
    let size1 := st.model.geom_size (g * 3 + 1)
    let size2 := st.model.geom_size (g * 3 + 2)
    let bodies :=
      if (st.bodies b).isSome then st.bodies
      else fun b2 =>
        if b2 = b then
          some { name := scanName (namesBytes st.model) (st.model.name_bodyadr b)
                 bodyID := b, has_custom_mesh := false, meshes := [] }
        else st.bodies b2
    let synth : MeshSynthesis × Bool :=
      if type = 0 then (⟨Geometry.defaultSphere (size0 * (1/2)), st.model, st.meshes⟩, false)
      else if type = 1 then (⟨Geometry.defaultSphere (size0 * (1/2)), st.model, st.meshes⟩, false)
      else if type = 2 then (⟨Geometry.sphere size0, st.model, st.meshes⟩, false)
      else if type = 3 then (⟨Geometry.capsule size0 (size1 * 2), st.model, st.meshes⟩, false)
      else if type = 4 then (⟨Geometry.unitSphere, st.model, st.meshes⟩, false)
      else if type = 5 then (⟨Geometry.cylinder size0 (size1 * 2), st.model, st.meshes⟩, false)
      else if type = 6 then
        (⟨Geometry.box (size0 * 2) (size2 * 2) (size1 * 2), st.model, st.meshes⟩, false)
      else if type = 7 then
        (synthesizeMeshGeom st.model st.meshes (st.model.geom_dataid g).toNat, true)
      else (⟨Geometry.defaultSphere (size0 * (1/2)), st.model, st.meshes⟩, false)
    let model2 := synth.1.model
    let bodies2 := if synth.2 then setBodyCustom bodies b else bodies
    let rm := resolveMaterial model2 st.material st.nextTexObj st.materialAllocs g
    let mesh : MeshNode :=
      { geometry := synth.1.geometry
        material := rm.material
        isReflector := type = 0
        reflectorTexture := if type = 0 then rm.texMap else none
        castShadow := g ≠ 0
        receiveShadow := type ≠ 7
        bodyID := b
        position := MjScene.getPosition model2.geom_pos g
        quaternion := if type ≠ 0 then some (MjScene.getQuaternion model2.geom_quat g) else none
        scale := if type = 4 then ⟨size0, size2, size1⟩ else ⟨1, 1, 1⟩ }
    { model := model2
      bodies := addMeshToBody bodies2 b mesh
      meshes := synth.1.meshes
      material := rm.material
      nextTexObj := rm.nextTexObj
      materialAllocs := rm.allocs }
  else st

/-- A light node created by the light loop. -/
structure LightNode where
  directional : Bool
  decay : ℚ
  penumbra : ℚ
  castShadow : Bool
  onBody0 : Bool

/-- The light loop: one directional or spot light per model light, with
decay attenuation * 100, attached to body 0 when that group exists and to
the root otherwise. -/
def parseLights (m : Model) (body0Exists : Bool) : List LightNode :=
  (List.range m.nlight).map fun l =>
    { directional := m.light_directional l
      decay := m.light_attenuation l * 100
      penumbra := 1/2
      castShadow := true
      onBody0 := body0Exists }

/-- Splits the byte blob on null bytes, as fullString.split(nullChar). -/
def splitOnZero : List ℕ → List (List ℕ)
  | [] => [[]]
  | byte :: rest =>
    if byte = 0 then [] :: splitOnZero rest
    else
      match splitOnZero rest with
      | [] => [[byte]]
      | h :: t => (byte :: h) :: t

/-- The body attachment pass: body ids placed directly under the root, ids
placed under body 0, and the body map extended with the synthesized empty
groups for dead bodies (named names[b + 1] from the split blob). -/
structure AssembledBodies where
  bodies : ℕ → Option BodyNode
  underRoot : List ℕ
  underBody0 : List ℕ

/-- The per-body step of the attachment loop: body 0 (or any body while
body 0 has no group; an absent group makes the THREE add call log an error
and do nothing) goes under the root, existing groups under body 0, and a
body id never materialized gets a fresh named group under body 0. -/
def attachBodyStep (names : List ℕ) (acc : AssembledBodies) (b : ℕ) :
    AssembledBodies :=
  if b = 0 ∨ (acc.bodies 0).isNone then
    { acc with underRoot := acc.underRoot ++ [b] }
  else if (acc.bodies b).isSome then
    { acc with underBody0 := acc.underBody0 ++ [b] }
  else
    { acc with
      bodies := fun b2 =>
        if b2 = b then
          some { name := (splitOnZero names).getD (b + 1) []
                 bodyID := b, has_custom_mesh := false, meshes := [] }
        else acc.bodies b2
      underBody0 := acc.underBody0 ++ [b] }

/-- The attachment loop over bodies 0..nbody. -/
def attachBodies (names : List ℕ) (bodies : ℕ → Option BodyNode) (nbody : ℕ) :
    AssembledBodies :=
  (List.range nbody).foldl (attachBodyStep names) ⟨bodies, [], []⟩

/-- The fully built MuJoCo root group with everything the build parented
under it, together with the two fixed-capacity instanced tendon pools. -/
structure RootNode where
  bodies : ℕ → Option BodyNode
  underRoot : List ℕ
  underBody0 : List ℕ
  lights : List LightNode
  defaultLight : Bool
  cylindersCapacity : ℕ
  spheresCapacity : ℕ
  materialAllocs : ℕ

/-- The outcome of one loadSceneFromURL call: the live scene (the list of
root groups attached to it), the value returned to the caller (none models
the null sentinel produced by the catch handler), and the model afterwards
(the same model object, with its mesh buffers mutated by any triangle-mesh
synthesis). -/
structure LoadOutcome where
  scene : List RootNode
  returned : Option RootNode
  model : Model

/-- Embedding of loadSceneFromURL.  The integrity check on model.names runs
before the root group is attached to the live scene; when it fails, the
thrown Error is caught by the surrounding handler, which returns the null
sentinel, and the scene has not been touched.  After the check the build is
total: the geometry loop, tendon pool allocation, light loop and body
attachment always complete, and the fully populated root is attached to the
scene.  -/
def loadSceneFromURL (m : Model) (scene : List RootNode) : LoadOutcome :=
  if m.names = none ∨ m.names = some [] then
    { scene := scene, returned := none, model := m }
  else
    let st0 : BuildState :=
      { model := m, bodies := fun _ => none, meshes := fun _ => none,
        material := initialMaterial, nextTexObj := 0, materialAllocs := 0 }
    let st := (List.range m.ngeom).foldl geomStep st0
    let asm := attachBodies (namesBytes m) st.bodies st.model.nbody
    let root : RootNode :=
      { bodies := asm.bodies
        underRoot := asm.underRoot
        underBody0 := asm.underBody0
        lights := parseLights st.model ((st.bodies 0).isSome)
        defaultLight := st.model.nlight = 0
        cylindersCapacity := Tendon.POOL_CAPACITY
        spheresCapacity := Tendon.POOL_CAPACITY
        materialAllocs := st.materialAllocs }
    { scene := scene ++ [root], returned := some root, model := st.model }

/-- A model whose tables are all empty or zeroed, with a one-byte name
blob; the concrete models below override individual fields. -/
def defaultModel : Model :=
  { names := some [1], ngeom := 0, geom_group := fun _ => 0,
    geom_type := fun _ => 0, geom_bodyid := fun _ => 0,
    geom_size := fun _ => 0, geom_pos := fun _ => 0, geom_quat := fun _ => 0,
    geom_matid := fun _ => -1, geom_rgba := fun _ => 0,
    geom_dataid := fun _ => -1, mat_rgba := fun _ => 0,
    mat_texid := fun _ => -1, mat_specular := fun _ => 0,
    mat_reflectance := fun _ => 0, mat_shininess := fun _ => 0,
    tex_width := fun _ => 0, tex_height := fun _ => 0, tex_adr := fun _ => 0,
    tex_rgb := fun _ => 0, name_bodyadr := fun _ => 0,
    mesh_vertadr := fun _ => 0, mesh_vertnum := fun _ => 0,
    mesh_vert := fun _ => 0, mesh_normal := fun _ => 0,
    mesh_texcoordadr := fun _ => 0, mesh_texcoord := fun _ => 0,
    mesh_faceadr := fun _ => 0, mesh_facenum := fun _ => 0,
    mesh_face := fun _ => 0, nlight := 0,
    light_directional := fun _ => false, light_attenuation := fun _ => 0,
    nbody := 0 }

/-- C3 — the names integrity check runs before the root group is attached
to the live scene, so a model with an absent or empty name blob makes the
build fail (the thrown integrity error is caught and the null sentinel is
returned) with the scene left exactly as it was; more generally every
failing build leaves the scene unchanged, and every successful build
attaches exactly the one fully populated root group. -/
theorem build_fails_atomically (m : Model) (scene : List RootNode) :
    ((m.names = none ∨ m.names = some []) →
      (loadSceneFromURL m scene).returned = none ∧
      (loadSceneFromURL m scene).scene = scene) ∧
    ((loadSceneFromURL m scene).returned = none →
      (loadSceneFromURL m scene).scene = scene) ∧
    (∀ root, (loadSceneFromURL m scene).returned = some root →
      (loadSceneFromURL m scene).scene = scene ++ [root]) := by
  by_cases h : m.names = none ∨ m.names = some []
  · refine ⟨fun _ => ⟨?_, ?_⟩, fun _ => ?_, fun root hroot => ?_⟩
    · simp [loadSceneFromURL, h]
    · simp [loadSceneFromURL, h]
    · simp [loadSceneFromURL, h]
    · simp [loadSceneFromURL, h] at hroot
  · refine ⟨fun hcon => absurd hcon h, fun hnone => ?_, fun root hroot => ?_⟩
    · simp [loadSceneFromURL, h] at hnone
    · simp only [loadSceneFromURL, if_neg h] at hroot ⊢
      simp only [Option.some.injEq] at hroot
      rw [hroot]

/-- Concrete model whose name blob is present but empty. -/
def mC3 : Model := { defaultModel with names := some [] }

/-- Witness for C3 at the concrete empty-name-blob model and an empty live
scene. -/
theorem build_fails_atomically_witness :
    (mC3.names = none ∨ mC3.names = some []) ∧
    ((loadSceneFromURL mC3 []).returned = none ∧
      (loadSceneFromURL mC3 []).scene = []) :=
  ⟨Or.inr rfl, (build_fails_atomically mC3 []).1 (Or.inr rfl)⟩

/-- C7 amended — the memo prevents a second allocation only for a
texture-free geometry whose derived color and opacity match the memo slot
(with the memo map empty): then the material is reused unchanged.  Any
difference in derived color or opacity allocates, and a geometry with a
texture always allocates, because the freshly constructed DataTexture
object never equals the memoized map (its identity is new); the final
conjunct is the freshness invariant this argument maintains. -/
theorem material_memo_behavior (m : Model) (memo : Material) (n a g : ℕ) :
    (¬ geomHasTexture m g →
      memo.r = (derivedColor m g).r → memo.g = (derivedColor m g).g →
      memo.b = (derivedColor m g).b → memo.opacity = (derivedColor m g).a →
      memo.map = none →
      resolveMaterial m memo n a g = ⟨memo, n, a, none⟩) ∧
    ((memo.r ≠ (derivedColor m g).r ∨ memo.g ≠ (derivedColor m g).g ∨
      memo.b ≠ (derivedColor m g).b ∨ memo.opacity ≠ (derivedColor m g).a) →
      (resolveMaterial m memo n a g).allocs = a + 1) ∧
    (geomHasTexture m g → (∀ k, memo.map = some k → k < n) →
      (resolveMaterial m memo n a g).allocs = a + 1) ∧
    ((∀ k, memo.map = some k → k < n) →
      ∀ k, (resolveMaterial m memo n a g).material.map = some k →
        k < (resolveMaterial m memo n a g).nextTexObj) := by
  refine ⟨?_, ?_, ?_, ?_⟩
  · intro hnt hr hg hb ho hm
    simp [resolveMaterial, hnt, hr, hg, hb, ho, hm]
  · intro hdiff
    by_cases ht : geomHasTexture m g <;>
      · simp only [resolveMaterial, ht, if_pos, if_neg, reduceIte]
        rcases hdiff with h | h | h | h <;> simp [h]
  · intro ht hfresh
    have hmap : ¬ memo.map = some n := fun hth => absurd (hfresh n hth) (lt_irrefl n)
    simp [resolveMaterial, ht, mkTexture, hmap]
  · intro hfresh k
    by_cases ht : geomHasTexture m g
    · by_cases hc : memo.r ≠ (derivedColor m g).r ∨ memo.g ≠ (derivedColor m g).g ∨
          memo.b ≠ (derivedColor m g).b ∨ memo.opacity ≠ (derivedColor m g).a ∨
          memo.map ≠ some n
      · simp only [ne_eq] at hc
        simp [resolveMaterial, ht, mkTexture, hc]
        intro hk
        omega
      · simp only [ne_eq] at hc
        simp [resolveMaterial, ht, mkTexture, hc]
        intro hk
        exact lt_of_lt_of_le (hfresh k hk) (Nat.le_succ n)
    · by_cases hc : memo.r ≠ (derivedColor m g).r ∨ memo.g ≠ (derivedColor m g).g ∨
          memo.b ≠ (derivedColor m g).b ∨ memo.opacity ≠ (derivedColor m g).a ∨
          memo.map ≠ (none : Option ℕ)
      · simp only [ne_eq] at hc
        simp [resolveMaterial, ht, hc]
      · simp only [ne_eq] at hc
        simp [resolveMaterial, ht, hc]
        intro hk
        exact hfresh k hk

/-- Concrete texture-free model whose geom 0 derives the color (1,1,1,1)
matching the initial memo material. -/
def mPlain : Model := { defaultModel with geom_rgba := fun _ => 1 }

/-- Witness for C7 amended: on the texture-free geometry with matching
color, the memoized material is reused and no allocation happens. -/
theorem material_memo_behavior_witness :
    (¬ geomHasTexture mPlain 0) ∧
    resolveMaterial mPlain initialMaterial 0 0 0 = ⟨initialMaterial, 0, 0, none⟩ := by
  have hnt : ¬ geomHasTexture mPlain 0 := by
    simp [geomHasTexture, mPlain, defaultModel]
  refine ⟨hnt, ?_⟩
  exact (material_memo_behavior mPlain initialMaterial 0 0 0).1 hnt
    (by simp [initialMaterial, derivedColor, mPlain, defaultModel])
    (by simp [initialMaterial, derivedColor, mPlain, defaultModel])
    (by simp [initialMaterial, derivedColor, mPlain, defaultModel])
    (by simp [initialMaterial, derivedColor, mPlain, defaultModel])
    rfl

/-- Concrete model with two consecutive geoms sharing material id 0, which
references texture id 0 with color (1/2, 1/2, 1/2, 1/2). -/
def mTex : Model :=
  { defaultModel with
    ngeom := 2
    geom_matid := fun _ => 0
    mat_texid := fun _ => 0
    mat_rgba := fun _ => 1/2
    tex_width := fun _ => 1
    tex_height := fun _ => 1
    tex_rgb := fun _ => 1 }

/-- C7 counterexample — two consecutive geometries with identical derived
color, opacity and texture record (structural texture identity) still
allocate two materials: the second comparison fails on the freshly
constructed DataTexture object, so the memo never helps a textured run. -/
theorem material_realloc_counterexample :
    specAppearance mTex 0 = specAppearance mTex 1 ∧
    (resolveMaterial mTex initialMaterial 0 0 0).allocs = 1 ∧
    (resolveMaterial mTex (resolveMaterial mTex initialMaterial 0 0 0).material
      (resolveMaterial mTex initialMaterial 0 0 0).nextTexObj
      (resolveMaterial mTex initialMaterial 0 0 0).allocs 1).allocs = 2 := by
  have ht : geomHasTexture mTex 0 ∧ geomHasTexture mTex 1 := by
    constructor <;> simp [geomHasTexture, mTex, defaultModel]
  refine ⟨?_, ?_, ?_⟩
  · simp [specAppearance, derivedColor, geomHasTexture, mTex, defaultModel]
  · norm_num [resolveMaterial, derivedColor, mTex, defaultModel, initialMaterial,
      geomHasTexture, mkTexture]
  · norm_num [resolveMaterial, derivedColor, mTex, defaultModel, initialMaterial,
      geomHasTexture, mkTexture]

lemma swizzleTriples_at (buf : ℕ → ℚ) (va vn k : ℕ) (h1 : va ≤ k)
    (h2 : k < va + vn) :
    swizzleTriples buf (va * 3) ((va + vn) * 3) (3 * k) = buf (3 * k) ∧
    swizzleTriples buf (va * 3) ((va + vn) * 3) (3 * k + 1) = buf (3 * k + 2) ∧
    swizzleTriples buf (va * 3) ((va + vn) * 3) (3 * k + 2) = - buf (3 * k + 1) := by
  unfold swizzleTriples
  refine ⟨?_, ?_, ?_⟩
  · rw [if_pos (by omega : va * 3 ≤ 3 * k ∧ 3 * k < (va + vn) * 3),
      if_pos (by omega : 3 * k % 3 = 0)]
  · rw [if_pos (by omega : va * 3 ≤ 3 * k + 1 ∧ 3 * k + 1 < (va + vn) * 3),
      if_neg (by omega : ¬(3 * k + 1) % 3 = 0),
      if_pos (by omega : (3 * k + 1) % 3 = 1),
      show 3 * k + 1 + 1 = 3 * k + 2 from by omega]
  · rw [if_pos (by omega : va * 3 ≤ 3 * k + 2 ∧ 3 * k + 2 < (va + vn) * 3),
      if_neg (by omega : ¬(3 * k + 2) % 3 = 0),
      if_neg (by omega : ¬(3 * k + 2) % 3 = 1),
      show 3 * k + 2 - 1 = 3 * k + 1 from by omega]

lemma swizzleTriples_twice (buf : ℕ → ℚ) (va vn k : ℕ) (h1 : va ≤ k)
    (h2 : k < va + vn) :
    swizzleTriples (swizzleTriples buf (va * 3) ((va + vn) * 3))
      (va * 3) ((va + vn) * 3) (3 * k) = buf (3 * k) ∧
    swizzleTriples (swizzleTriples buf (va * 3) ((va + vn) * 3))
      (va * 3) ((va + vn) * 3) (3 * k + 1) = - buf (3 * k + 1) ∧
    swizzleTriples (swizzleTriples buf (va * 3) ((va + vn) * 3))
      (va * 3) ((va + vn) * 3) (3 * k + 2) = - buf (3 * k + 2) := by
  obtain ⟨a1, a2, a3⟩ := swizzleTriples_at buf va vn k h1 h2
  obtain ⟨b1, b2, b3⟩ :=
    swizzleTriples_at (swizzleTriples buf (va * 3) ((va + vn) * 3)) va vn k h1 h2
  exact ⟨by rw [b1, a1], by rw [b2, a3], by rw [b3, a2]⟩

lemma synthesizeMeshGeom_miss (m : Model) (cache : ℕ → Option Geometry)
    (meshID : ℕ) (hmiss : cache meshID = none) :
    synthesizeMeshGeom m cache meshID =
      { geometry := Geometry.bufferGeom meshID
        model :=
          { m with
            mesh_vert := swizzleTriples m.mesh_vert (m.mesh_vertadr meshID * 3)
              ((m.mesh_vertadr meshID + m.mesh_vertnum meshID) * 3)
            mesh_normal := swizzleTriples m.mesh_normal (m.mesh_vertadr meshID * 3)
              ((m.mesh_vertadr meshID + m.mesh_vertnum meshID) * 3) }
        meshes := fun j =>
          if j = meshID then some (Geometry.bufferGeom meshID) else cache j } := by
  unfold synthesizeMeshGeom
  rw [hmiss]

/-- C9 — triangle-mesh synthesis does not copy: on a cache miss it swizzles
(y and z swapped, the new z negated) the vertex and normal sub-ranges of
the model's own shared buffers in place and hands out a geometry whose
attributes are subarray views keyed by the mesh id; a cache hit within the
same build reuses the geometry and leaves the model untouched; and a second
synthesis pass over the same (already mutated) model data applies the
swizzle a second time, yielding (x, -y, -z) of the original data. -/
theorem mesh_synthesis_mutates_model (m : Model) (cache : ℕ → Option Geometry)
    (meshID k : ℕ) (hmiss : cache meshID = none)
    (h1 : m.mesh_vertadr meshID ≤ k)
    (h2 : k < m.mesh_vertadr meshID + m.mesh_vertnum meshID) :
    ((synthesizeMeshGeom m cache meshID).model.mesh_vert (3 * k) =
        m.mesh_vert (3 * k) ∧
      (synthesizeMeshGeom m cache meshID).model.mesh_vert (3 * k + 1) =
        m.mesh_vert (3 * k + 2) ∧
      (synthesizeMeshGeom m cache meshID).model.mesh_vert (3 * k + 2) =
        - m.mesh_vert (3 * k + 1)) ∧
    ((synthesizeMeshGeom m cache meshID).model.mesh_normal (3 * k) =
        m.mesh_normal (3 * k) ∧
      (synthesizeMeshGeom m cache meshID).model.mesh_normal (3 * k + 1) =
        m.mesh_normal (3 * k + 2) ∧
      (synthesizeMeshGeom m cache meshID).model.mesh_normal (3 * k + 2) =
        - m.mesh_normal (3 * k + 1)) ∧
    (synthesizeMeshGeom m cache meshID).geometry = Geometry.bufferGeom meshID ∧
    (synthesizeMeshGeom m cache meshID).meshes meshID =
      some (Geometry.bufferGeom meshID) ∧
    (∀ (m2 : Model) (cache2 : ℕ → Option Geometry) (mid : ℕ) (geo : Geometry),
      cache2 mid = some geo →
      synthesizeMeshGeom m2 cache2 mid = ⟨geo, m2, cache2⟩) ∧
    ((synthesizeMeshGeom (synthesizeMeshGeom m cache meshID).model
        (fun _ => none) meshID).model.mesh_vert (3 * k) = m.mesh_vert (3 * k) ∧
      (synthesizeMeshGeom (synthesizeMeshGeom m cache meshID).model
        (fun _ => none) meshID).model.mesh_vert (3 * k + 1) =
        - m.mesh_vert (3 * k + 1) ∧
      (synthesizeMeshGeom (synthesizeMeshGeom m cache meshID).model
        (fun _ => none) meshID).model.mesh_vert (3 * k + 2) =
        - m.mesh_vert (3 * k + 2)) := by
  have hre := synthesizeMeshGeom_miss m cache meshID hmiss
  have hvert := swizzleTriples_at m.mesh_vert (m.mesh_vertadr meshID)
    (m.mesh_vertnum meshID) k h1 h2
  have hnorm := swizzleTriples_at m.mesh_normal (m.mesh_vertadr meshID)
    (m.mesh_vertnum meshID) k h1 h2
  have htwice := swizzleTriples_twice m.mesh_vert (m.mesh_vertadr meshID)
    (m.mesh_vertnum meshID) k h1 h2
  refine ⟨⟨?_, ?_, ?_⟩, ⟨?_, ?_, ?_⟩, ?_, ?_, ?_, ?_, ?_, ?_⟩
  · rw [hre]; exact hvert.1
  · rw [hre]; exact hvert.2.1
  · rw [hre]; exact hvert.2.2
  · rw [hre]; exact hnorm.1
  · rw [hre]; exact hnorm.2.1
  · rw [hre]; exact hnorm.2.2
  · rw [hre]
  · rw [hre]; simp
  · intro m2 cache2 mid geo hhit
    unfold synthesizeMeshGeom
    rw [hhit]
  · rw [hre, synthesizeMeshGeom_miss _ (fun _ => none) meshID rfl]
    dsimp only
    exact htwice.1
  · rw [hre, synthesizeMeshGeom_miss _ (fun _ => none) meshID rfl]
    dsimp only
    exact htwice.2.1
  · rw [hre, synthesizeMeshGeom_miss _ (fun _ => none) meshID rfl]
    dsimp only
    exact htwice.2.2

/-- Concrete model holding one mesh of a single vertex at buffer offsets
0..2 with values (2, 3, 5) and a normal (0, 7, 11). -/
def mMesh : Model :=
  { defaultModel with
    mesh_vertnum := fun _ => 1
    mesh_vert := fun n => if n = 0 then 2 else if n = 1 then 3 else if n = 2 then 5 else 0
    mesh_normal := fun n => if n = 1 then 7 else if n = 2 then 11 else 0 }

/-- The empty mesh cache a fresh build starts from. -/
def emptyGeomCache : ℕ → Option Geometry := fun _ => none

/-- Witness for C9 at the concrete one-vertex mesh: the first build pass
stores the old z in the y slot of the model buffer itself. -/
theorem mesh_synthesis_mutates_model_witness :
    (emptyGeomCache 0 = none ∧ mMesh.mesh_vertadr 0 ≤ 0 ∧
      0 < mMesh.mesh_vertadr 0 + mMesh.mesh_vertnum 0) ∧
    (synthesizeMeshGeom mMesh emptyGeomCache 0).model.mesh_vert 1 =
      mMesh.mesh_vert 2 := by
  have h := mesh_synthesis_mutates_model mMesh emptyGeomCache 0 0 rfl
    (Nat.le_refl 0) (by simp [mMesh, defaultModel])
  refine ⟨⟨rfl, Nat.le_refl 0, by simp [mMesh, defaultModel]⟩, ?_⟩
  simpa using h.1.2.1

end Scene
